import Mathlib

/-!
Shallow embedding of the exam-attempt engine of the repository
(src/types.ts, src/services/examLogic.ts, src/App.tsx).

Conventions of the embedding:
* JS string-keyed objects (`answers`, `statuses`) become functions
  `Nat → Option String` / `Nat → Option QuestionStatus`; an absent key is
  `none` and a spread update `{ ...m, [k]: v }` is a pointwise if-then-else
  update.
* JS machine numbers holding counts and qids are `Nat`; marking-scheme
  deltas and the raw score, which can be negative, are `Int`.
* JS truthiness of a string (`if (answer)`) is "present and non-empty".
* Nullable fields (`answerKey: string | null`) are `Option String`.
-/

namespace ExamSim

/-- QuestionType from src/types.ts. -/
inductive QuestionType where
  | MCQ
  | TITA
deriving DecidableEq, Repr

/-- QuestionStatus from src/types.ts. -/
inductive QuestionStatus where
  | NotVisited
  | NotAnswered
  | Answered
  | MarkedForReview
  | AnsweredAndMarked
deriving DecidableEq, Repr

/-- Option interface from src/types.ts (an MCQ choice; renamed to avoid
clashing with Lean's Option). -/
structure MCQChoice where
  label : String := ""
  text : String := ""
deriving DecidableEq, Repr

/-- FigureRef from src/types.ts. -/
structure FigureRef where
  dataUrl : String := ""
  caption : Option String := none
deriving DecidableEq, Repr

/-- Question from src/types.ts. Fields irrelevant to the engine (text,
options, figures, page metadata) carry neutral defaults so concrete
instances stay readable; `section` is renamed `sectionTag` because
`section` is a Lean keyword. -/
structure Question where
  qid : Nat
  text : String := ""
  qtype : QuestionType
  options : List MCQChoice := []
  answerKey : Option String
  passageId : Option Nat := none
  figureRefs : List FigureRef := []
  pageRef : Nat := 0
  sectionTag : Option String := none
  topic : Option String := none
deriving DecidableEq, Repr

/-- Passage from src/types.ts. -/
structure Passage where
  passageId : Nat
  title : Option String := none
  text : String := ""
  pageSpan : Nat × Nat := (0, 0)
deriving DecidableEq, Repr

/-- A per-type `{correct, wrong}` pair of point deltas from
MarkingScheme in src/types.ts. -/
structure MarkingPair where
  correct : Int
  wrong : Int
deriving DecidableEq, Repr

/-- MarkingScheme from src/types.ts. -/
structure MarkingScheme where
  mcq : MarkingPair
  tita : MarkingPair
deriving DecidableEq, Repr

/-- The meta.status union "processing" | "ready" | "error" of QuestionSet. -/
inductive ProcessingStatus where
  | processing
  | ready
  | err
deriving DecidableEq, Repr

/-- The meta block of QuestionSet from src/types.ts. -/
structure MetaInfo where
  title : String := ""
  year : Option Nat := none
  sourceUrl : Option String := none
  status : ProcessingStatus := .ready
  totalQuestions : Nat := 0
  totalPassages : Nat := 0
  marking : MarkingScheme
deriving DecidableEq, Repr

/-- QuestionSet from src/types.ts. -/
structure QuestionSet where
  meta : MetaInfo
  passages : List Passage := []
  questions : List Question
deriving DecidableEq, Repr

/-- Score from src/types.ts. -/
structure Score where
  raw : Int
  mcqCorrect : Nat
  mcqWrong : Nat
  titaCorrect : Nat
  totalAnswered : Nat
deriving DecidableEq, Repr

/-- The timer block of Attempt from src/types.ts. -/
structure AttemptTimer where
  startedAt : Nat
  durationSec : Nat
  remainingSec : Nat
deriving DecidableEq, Repr

/-- The attempt lifecycle union "inProgress" | "submitted". -/
inductive AttemptStatus where
  | inProgress
  | submitted
deriving DecidableEq, Repr

/-- Attempt from src/types.ts. `answers` and `statuses` are the
string-keyed JS objects, embedded as functions on qids. -/
structure Attempt where
  uploadId : String
  userId : String
  timer : AttemptTimer
  answers : Nat → Option String
  statuses : Nat → Option QuestionStatus
  status : AttemptStatus
  score : Option Score

/-- JS truthiness of `attempt.answers[qid]`: the key is present and the
string is non-empty. -/
def truthyStr : Option String → Bool
  | none => false
  | some s => s != ""

/-- Whitespace as JS String.prototype.trim removes it, restricted to the
ASCII WhiteSpace and LineTerminator characters (every string the engine
handles is ASCII; Lean's own String.trim is not kernel-reducible, so the
JS methods are modelled directly on the character list). -/
def isJsWhitespace (c : Char) : Bool :=
  c = ' ' ∨ c = '\t' ∨ c = '\n' ∨ c = '\r' ∨ c = Char.ofNat 11 ∨ c = Char.ofNat 12

/-- JS String.prototype.trim: drop whitespace from both ends. -/
def jsTrim (s : String) : String :=
  ⟨((s.data.dropWhile isJsWhitespace).reverse.dropWhile isJsWhitespace).reverse⟩

/-- JS String.prototype.toLowerCase on one character, over the ASCII
range (A-Z maps to a-z, every other character is unchanged). -/
def jsToLowerChar (c : Char) : Char :=
  if 65 ≤ c.toNat ∧ c.toNat ≤ 90 then Char.ofNat (c.toNat + 32) else c

/-- JS String.prototype.toLowerCase, over the ASCII range. -/
def jsToLowerCase (s : String) : String := ⟨s.data.map jsToLowerChar⟩

/-- The correctness test of calculateScore (src/services/examLogic.ts
line 16): `userAnswer.trim().toLowerCase() === q.answerKey?.toLowerCase()`.
With a null answerKey the optional chain yields undefined and the strict
equality is false. Note the answerKey is lowercased but not trimmed. -/
def isCorrectFor (userAnswer : String) (answerKey : Option String) : Bool :=
  match answerKey with
  | some key => jsToLowerCase (jsTrim userAnswer) == jsToLowerCase key
  | none => false

/-- The four counters accumulated by the loop of calculateScore. -/
structure ScoreCounts where
  mcqCorrect : Nat := 0
  mcqWrong : Nat := 0
  titaCorrect : Nat := 0
  totalAnswered : Nat := 0
deriving DecidableEq, Repr

/-- One iteration of the `for(const q of questionSet.questions)` loop of
calculateScore (src/services/examLogic.ts lines 12-25). The guard
`userAnswer && userAnswer.trim() !== ""` is "present, non-empty, and
non-empty after trimming". -/
def scoreStep (answers : Nat → Option String) (acc : ScoreCounts)
    (q : Question) : ScoreCounts :=
  match answers q.qid with
  | none => acc
  | some userAnswer =>
    if userAnswer ≠ "" ∧ jsTrim userAnswer ≠ "" then
      let acc1 := { acc with totalAnswered := acc.totalAnswered + 1 }
      let isCorrect := isCorrectFor userAnswer q.answerKey
      match q.qtype with
      | QuestionType.MCQ =>
        if isCorrect then { acc1 with mcqCorrect := acc1.mcqCorrect + 1 }
        else { acc1 with mcqWrong := acc1.mcqWrong + 1 }
      | QuestionType.TITA =>
        if isCorrect then { acc1 with titaCorrect := acc1.titaCorrect + 1 }
        else acc1
    else acc

/-- calculateScore from src/services/examLogic.ts. -/
def calculateScore (attempt : Attempt) (questionSet : QuestionSet) : Score :=
  let marking := questionSet.meta.marking
  let c := questionSet.questions.foldl (scoreStep attempt.answers) {}
  { raw := (c.mcqCorrect : Int) * marking.mcq.correct
      + (c.mcqWrong : Int) * marking.mcq.wrong
      + (c.titaCorrect : Int) * marking.tita.correct
  , mcqCorrect := c.mcqCorrect
  , mcqWrong := c.mcqWrong
  , titaCorrect := c.titaCorrect
  , totalAnswered := c.totalAnswered }

/-- EXAM_DURATION_SECONDS from src/App.tsx (180 * 60, 3 hours). -/
def EXAM_DURATION_SECONDS : Nat := 180 * 60

/-- The status map built by startExam (src/App.tsx lines 54-57): every
question's qid is written to NotVisited in order, then the first
question's qid is overwritten to NotAnswered. On an empty list the map
stays empty (startExam has already returned by then). -/
def initialStatuses (questions : List Question) : Nat → Option QuestionStatus :=
  let base : Nat → Option QuestionStatus :=
    questions.foldl
      (fun m q => fun k => if k = q.qid then some QuestionStatus.NotVisited else m k)
      (fun _ => none)
  match questions with
  | [] => base
  | q0 :: _ => fun k => if k = q0.qid then some QuestionStatus.NotAnswered else base k

/-- The outcome of reading `localStorage.getItem` followed by `JSON.parse`
in startExam, abstracted by its result: the raw blob is either not JSON
(JSON.parse throws) or deserializes to an attempt-shaped value, which the
code trusts blindly. -/
inductive ParsedBlob where
  | malformed
  | parsed (a : Attempt)

/-- The observable outcome of startExam (src/App.tsx lines 47-87):
`noQuestions` is the empty-set branch (processing error set, view back to
upload, no attempt); `parseFailure` is the uncaught exception from
`JSON.parse` on a present-but-malformed blob; `resumed`/`fresh` reach
`setView('exam')` with the given attempt. Selection of
currentQuestionIndex (the `last_qid` lookup) is not modelled; no claim
mentions it. -/
inductive StartExamResult where
  | noQuestions
  | parseFailure
  | resumed (a : Attempt)
  | fresh (a : Attempt)

/-- The attempt installed by a startExam outcome, if any. -/
def StartExamResult.startedAttempt : StartExamResult → Option Attempt
  | .resumed a => some a
  | .fresh a => some a
  | _ => none

/-- Whether a startExam outcome failed to enter the exam view. -/
def StartExamResult.isFailure : StartExamResult → Bool
  | .noQuestions => true
  | .parseFailure => true
  | _ => false

/-- startExam from src/App.tsx lines 47-87. `savedBlob` is the persisted
state under `attempt_` + sessionId: `none` when absent, otherwise the
JSON.parse outcome of the stored string. `now` stands for `Date.now()`. -/
def startExam (qSet : QuestionSet) (sessionId : String)
    (savedBlob : Option ParsedBlob) (now : Nat) : StartExamResult :=
  if qSet.questions.length = 0 then
    StartExamResult.noQuestions
  else
    let statuses := initialStatuses qSet.questions
    match savedBlob with
    | some ParsedBlob.malformed => StartExamResult.parseFailure
    | some (ParsedBlob.parsed saved) => StartExamResult.resumed saved
    | none =>
      StartExamResult.fresh
        { uploadId := sessionId
        , userId := "local_user"
        , timer :=
            { startedAt := now
            , durationSec := EXAM_DURATION_SECONDS
            , remainingSec := EXAM_DURATION_SECONDS }
        , answers := fun _ => none
        , statuses := statuses
        , status := AttemptStatus.inProgress
        , score := none }

/-- handleAnswerChange from src/App.tsx lines 304-321: writes the answer
and recomputes the question's status from its current status and the JS
truthiness of the new answer (`if (answer)`, i.e. non-empty). -/
def handleAnswerChange (qid : Nat) (answer : String) (prev : Attempt) : Attempt :=
  let updatedAnswers : Nat → Option String :=
    fun k => if k = qid then some answer else prev.answers k
  let currentStatus := prev.statuses qid
  let newStatus :=
    if answer ≠ "" then
      if currentStatus = some QuestionStatus.MarkedForReview
          ∨ currentStatus = some QuestionStatus.AnsweredAndMarked then
        QuestionStatus.AnsweredAndMarked
      else QuestionStatus.Answered
    else
      if currentStatus = some QuestionStatus.AnsweredAndMarked then
        QuestionStatus.MarkedForReview
      else if currentStatus ≠ some QuestionStatus.MarkedForReview then
        QuestionStatus.NotAnswered
      else QuestionStatus.MarkedForReview
  { prev with
    answers := updatedAnswers
  , statuses := fun k => if k = qid then some newStatus else prev.statuses k }

/-- handleMarkForReview from src/App.tsx lines 323-332 (the ToggleMark
event), applied to the question `qid`; "answered" is the JS truthiness of
`attempt.answers[qid]`. The final `updateStatus` spread-updates the
status map. -/
def handleMarkForReview (qid : Nat) (attempt : Attempt) : Attempt :=
  let currentStatus := attempt.statuses qid
  let answered := truthyStr (attempt.answers qid)
  let newStatus :=
    if currentStatus = some QuestionStatus.MarkedForReview then
      if answered then QuestionStatus.Answered else QuestionStatus.NotAnswered
    else if currentStatus = some QuestionStatus.AnsweredAndMarked then
      QuestionStatus.Answered
    else
      if answered then QuestionStatus.AnsweredAndMarked
      else QuestionStatus.MarkedForReview
  { attempt with
    statuses := fun k => if k = qid then some newStatus else attempt.statuses k }

/-- The ToggleMark transition table as the spec's section 4.1 words it,
kept separate from the source translation so the two can be compared:
MarkedForReview goes to Answered if answered else NotAnswered;
AnsweredAndMarked goes to Answered; anything else goes to
AnsweredAndMarked if answered else MarkedForReview. -/
def specToggleMark (current : QuestionStatus) (answered : Bool) : QuestionStatus :=
  match current with
  | QuestionStatus.MarkedForReview =>
    if answered then QuestionStatus.Answered else QuestionStatus.NotAnswered
  | QuestionStatus.AnsweredAndMarked => QuestionStatus.Answered
  | _ =>
    if answered then QuestionStatus.AnsweredAndMarked
    else QuestionStatus.MarkedForReview

/-- The state of the useTimer hook (src/types.ts lines 95-141):
`remainingTime` and `isRunning` are its two useState cells, and
`onEndCount` counts invocations of the `onEnd` callback so "fires exactly
once" is expressible. -/
structure TimerState where
  remainingTime : Nat
  isRunning : Bool
  onEndCount : Nat
deriving DecidableEq, Repr

/-- endTimer from useTimer: clears the interval, sets isRunning false and
invokes onEnd. -/
def endTimer (s : TimerState) : TimerState :=
  { s with isRunning := false, onEndCount := s.onEndCount + 1 }

/-- One tick of useTimer's interval callback. The interval only exists
while `isRunning && remainingTime > 0` (the effect at src/types.ts line
110), so outside that guard a tick event cannot fire and the state is
unchanged; inside it, `prevTime <= 1` ends the timer and floors the clock
at 0, otherwise the clock decrements by 1. -/
def tick (s : TimerState) : TimerState :=
  if s.isRunning ∧ 0 < s.remainingTime then
    if s.remainingTime ≤ 1 then { endTimer s with remainingTime := 0 }
    else { s with remainingTime := s.remainingTime - 1 }
  else s

/-- n consecutive ticks. -/
def ticks : Nat → TimerState → TimerState
  | 0, s => s
  | n + 1, s => ticks n (tick s)

/-- setTime from useTimer (src/types.ts lines 134-138): the new value is
stored only when the timer is not running. -/
def setTime (newTime : Nat) (s : TimerState) : TimerState :=
  if !s.isRunning then { s with remainingTime := newTime } else s

/-- start from useTimer. -/
def startTimer (s : TimerState) : TimerState := { s with isRunning := true }

/-- pause from useTimer. -/
def pauseTimer (s : TimerState) : TimerState := { s with isRunning := false }

/-- A question set with the given marking scheme and questions, neutral
elsewhere; used to instantiate the scoring theorems. -/
def qSetOf (m : MarkingScheme) (qs : List Question) : QuestionSet :=
  { meta := { marking := m }, questions := qs }

/-- A neutral in-progress attempt with the given answers map, used to
instantiate the scoring theorems. -/
def attemptWithAnswers (answers : Nat → Option String) : Attempt :=
  { uploadId := "session"
  , userId := "local_user"
  , timer := { startedAt := 0
             , durationSec := EXAM_DURATION_SECONDS
             , remainingSec := EXAM_DURATION_SECONDS }
  , answers := answers
  , statuses := fun _ => none
  , status := AttemptStatus.inProgress
  , score := none }

/-- An in-progress attempt holding exactly one answer. -/
def singleAnswerAttempt (qid : Nat) (userAnswer : String) : Attempt :=
  attemptWithAnswers (fun k => if k = qid then some userAnswer else none)

/-- An in-progress attempt with no answers and question 1 in the given
status. -/
def attemptStatusOne (st : QuestionStatus) : Attempt :=
  { attemptWithAnswers (fun _ => none) with
    statuses := fun k => if k = 1 then some st else none }

/-- The marking scheme of the spec's scenarios:
mcq correct 3, wrong -1; tita correct 3, wrong 0. -/
def markingCAT : MarkingScheme :=
  { mcq := { correct := 3, wrong := -1 }, tita := { correct := 3, wrong := 0 } }

/-- Q1 of the spec's scoring scenario: MCQ, answerKey "B". -/
def questionQ1 : Question := { qid := 1, qtype := QuestionType.MCQ, answerKey := some "B" }

/-- Q2 of the spec's scoring scenario: TITA, answerKey "42". -/
def questionQ2 : Question := { qid := 2, qtype := QuestionType.TITA, answerKey := some "42" }

/-- Q3 of the spec's scenarios: MCQ with a null answerKey. -/
def questionNullKeyMCQ : Question := { qid := 3, qtype := QuestionType.MCQ, answerKey := none }

/-- A TITA question with a null answerKey. -/
def questionNullKeyTITA : Question := { qid := 4, qtype := QuestionType.TITA, answerKey := none }

/-- An MCQ question whose answerKey carries surrounding whitespace. -/
def questionPaddedKey : Question := { qid := 5, qtype := QuestionType.MCQ, answerKey := some " B " }

/-- QuestionSet.meta.marking with the tita.wrong field replaced, every
other field untouched. -/
def withTitaWrong (qs : QuestionSet) (w : Int) : QuestionSet :=
  { qs with meta := { qs.meta with marking := { qs.meta.marking with
      tita := { qs.meta.marking.tita with wrong := w } } } }

/-- Claim C5: with marking scheme mcq {3,-1} / tita {3,0} and questions
Q1 (MCQ, key "B", answered "B") and Q2 (TITA, key "42", answered "43"),
calculateScore returns exactly raw 3, mcqCorrect 1, mcqWrong 0,
titaCorrect 0, totalAnswered 2: the incorrect TITA answer yields no score
delta and no wrong counter. -/
theorem claim_C5_scenario_score :
    calculateScore
      (attemptWithAnswers
        (fun k => if k = 1 then some "B" else if k = 2 then some "43" else none))
      (qSetOf markingCAT [questionQ1, questionQ2])
      = { raw := 3, mcqCorrect := 1, mcqWrong := 0, titaCorrect := 0, totalAnswered := 2 } := by
  decide

/-- Claim C6: a running timer at remainingSec 5 reaches 0 after five
ticks, fires the end-of-time callback exactly once, and is Paused; from
that state any further sequence of ticks changes nothing and never
refires the callback. -/
theorem claim_C6_timer_expiry :
    ticks 5 { remainingTime := 5, isRunning := true, onEndCount := 0 }
      = { remainingTime := 0, isRunning := false, onEndCount := 1 }
    ∧ ∀ n : Nat,
        ticks n { remainingTime := 0, isRunning := false, onEndCount := 1 }
          = { remainingTime := 0, isRunning := false, onEndCount := 1 } := by
  refine ⟨by decide, ?_⟩
  intro n
  induction n with
  | zero => rfl
  | succ k ih => exact ih

/-- Claim C8: setTime while the timer is running is a no-op on the whole
timer state; while not running the new value is stored. -/
theorem claim_C8_setTime_only_while_paused (s : TimerState) (v : Nat) :
    (s.isRunning = true → setTime v s = s)
    ∧ (s.isRunning = false → setTime v s = { s with remainingTime := v }) := by
  constructor <;> intro h <;> simp [setTime, h]

/-- Witness for claim C8 at concrete states: running state unchanged,
paused state updated. -/
theorem claim_C8_setTime_only_while_paused_witness :
    setTime 42 { remainingTime := 7, isRunning := true, onEndCount := 0 }
      = { remainingTime := 7, isRunning := true, onEndCount := 0 }
    ∧ setTime 42 { remainingTime := 7, isRunning := false, onEndCount := 0 }
      = { remainingTime := 42, isRunning := false, onEndCount := 0 } :=
  ⟨(claim_C8_setTime_only_while_paused ⟨7, true, 0⟩ 42).1 rfl,
   (claim_C8_setTime_only_while_paused ⟨7, false, 0⟩ 42).2 rfl⟩

/-- Claim C9: replacing the tita.wrong delta of the marking scheme by any
value leaves calculateScore unchanged on every attempt and question set:
no field of the Score depends on tita.wrong. -/
theorem claim_C9_tita_wrong_never_read (a : Attempt) (qs : QuestionSet) (w : Int) :
    calculateScore a (withTitaWrong qs w) = calculateScore a qs := rfl

/-- Claim C10: the whitespace-only answer " " makes handleAnswerChange
set the status to Answered (AnsweredAndMarked when previously marked),
while calculateScore on the resulting attempt excludes the question from
totalAnswered and from every correct/wrong bucket. -/
theorem claim_C10_whitespace_answer_divergence :
    (handleAnswerChange 1 " " (attemptStatusOne QuestionStatus.NotAnswered)).statuses 1
      = some QuestionStatus.Answered
    ∧ (handleAnswerChange 1 " " (attemptStatusOne QuestionStatus.MarkedForReview)).statuses 1
      = some QuestionStatus.AnsweredAndMarked
    ∧ calculateScore (handleAnswerChange 1 " " (attemptStatusOne QuestionStatus.NotAnswered))
        (qSetOf markingCAT [questionQ1])
      = { raw := 0, mcqCorrect := 0, mcqWrong := 0, titaCorrect := 0, totalAnswered := 0 } := by
  refine ⟨by decide, by decide, by decide⟩

/-- Counterexample to claim C1: an answered MCQ with a null answerKey is
counted in mcqWrong and contributes marking.mcq.wrong (= -1 here) to raw,
not 0: the optional chain `q.answerKey?.toLowerCase()` yields undefined,
the strict equality is false, and the MCQ branch then increments the
wrong bucket. -/
theorem claim_C1_counterexample :
    calculateScore (singleAnswerAttempt 3 "A") (qSetOf markingCAT [questionNullKeyMCQ])
      = { raw := -1, mcqCorrect := 0, mcqWrong := 1, titaCorrect := 0, totalAnswered := 1 } := by
  decide

/-- Claim C1 as amended: an answered question with a null answerKey is
always counted in totalAnswered and judged incorrect; for a TITA
question this adds it to no bucket and contributes 0 to raw, but for an
MCQ question it is counted in mcqWrong and contributes marking.mcq.wrong
to raw. -/
theorem claim_C1_amended (m : MarkingScheme) (q : Question) (ua : String)
    (hkey : q.answerKey = none) (h1 : ua ≠ "") (h2 : jsTrim ua ≠ "") :
    calculateScore (singleAnswerAttempt q.qid ua) (qSetOf m [q])
      = match q.qtype with
        | QuestionType.MCQ =>
          { raw := m.mcq.wrong, mcqCorrect := 0, mcqWrong := 1
          , titaCorrect := 0, totalAnswered := 1 }
        | QuestionType.TITA =>
          { raw := 0, mcqCorrect := 0, mcqWrong := 0
          , titaCorrect := 0, totalAnswered := 1 } := by
  cases hqt : q.qtype <;>
    simp [calculateScore, qSetOf, singleAnswerAttempt, attemptWithAnswers,
      scoreStep, isCorrectFor, hkey, hqt, h1, h2]

/-- Witness for the amended claim C1 at a concrete TITA question with a
null answerKey, answered "7": only totalAnswered is incremented. -/
theorem claim_C1_amended_witness :
    calculateScore (singleAnswerAttempt 4 "7") (qSetOf markingCAT [questionNullKeyTITA])
      = { raw := 0, mcqCorrect := 0, mcqWrong := 0, titaCorrect := 0, totalAnswered := 1 } :=
  claim_C1_amended markingCAT questionNullKeyTITA "7" rfl (by decide) (by decide)

/-- Counterexample to claim C2: answer "B" against answerKey " B " has
equal trimmed-lowercased forms, yet calculateScore judges it wrong
(mcqWrong 1, raw -1) because the code lowercases but never trims the
answerKey. -/
theorem claim_C2_counterexample :
    jsToLowerCase (jsTrim "B") = jsToLowerCase (jsTrim " B ")
    ∧ calculateScore (singleAnswerAttempt 5 "B") (qSetOf markingCAT [questionPaddedKey])
        = { raw := -1, mcqCorrect := 0, mcqWrong := 1, titaCorrect := 0, totalAnswered := 1 } := by
  refine ⟨by decide, by decide⟩

/-- Claim C2 as amended: an answered question with a non-null answerKey
is judged correct if and only if the trimmed, lowercased answer equals
the lowercased — but untrimmed — answerKey; whitespace around the answer
never affects correctness, whitespace around the answerKey does. -/
theorem claim_C2_amended (m : MarkingScheme) (q : Question) (ua key : String)
    (hkey : q.answerKey = some key) (h1 : ua ≠ "") (h2 : jsTrim ua ≠ "") :
    (calculateScore (singleAnswerAttempt q.qid ua) (qSetOf m [q])).mcqCorrect
      + (calculateScore (singleAnswerAttempt q.qid ua) (qSetOf m [q])).titaCorrect = 1
    ↔ jsToLowerCase (jsTrim ua) = jsToLowerCase key := by
  by_cases hc : jsToLowerCase (jsTrim ua) = jsToLowerCase key <;>
    cases hqt : q.qtype <;>
      simp [calculateScore, qSetOf, singleAnswerAttempt, attemptWithAnswers,
        scoreStep, isCorrectFor, hkey, hqt, h1, h2, hc]

/-- Witness for the amended claim C2: the answer " b " against answerKey
"B" is judged correct (the answer is trimmed and lowercased before the
comparison). -/
theorem claim_C2_amended_witness :
    (calculateScore (singleAnswerAttempt 1 " b ") (qSetOf markingCAT [questionQ1])).mcqCorrect
      + (calculateScore (singleAnswerAttempt 1 " b ") (qSetOf markingCAT [questionQ1])).titaCorrect
      = 1 :=
  (claim_C2_amended markingCAT questionQ1 " b " "B" rfl (by decide) (by decide)).mpr (by decide)

/-- Lookup through the forEach of startExam that writes every qid to
NotVisited: a key is mapped to NotVisited exactly when some question
carries it, and is otherwise looked up in the initial map. -/
theorem statusWrites_foldl_eq (qs : List Question)
    (m0 : Nat → Option QuestionStatus) (k : Nat) :
    (qs.foldl
      (fun m q => fun j => if j = q.qid then some QuestionStatus.NotVisited else m j)
      m0) k
      = if k ∈ qs.map Question.qid then some QuestionStatus.NotVisited else m0 k := by
  induction qs generalizing m0 with
  | nil => simp
  | cons q rest ih =>
    simp only [List.foldl_cons, List.map_cons, List.mem_cons]
    rw [ih]
    by_cases hk : k = q.qid <;> simp [hk]

/-- Counterexample to claim C3: on a present-but-malformed persisted
blob, startExam does not start fresh — the JSON.parse exception
propagates (parseFailure) and no attempt is created. -/
theorem claim_C3_counterexample :
    startExam (qSetOf markingCAT [questionQ1]) "sid" (some ParsedBlob.malformed) 0
      = StartExamResult.parseFailure
    ∧ (startExam (qSetOf markingCAT [questionQ1]) "sid" (some ParsedBlob.malformed) 0).startedAttempt
      = none := ⟨rfl, rfl⟩

/-- Claim C3 as amended: with an absent persisted blob, startExam starts
a fresh in-progress attempt whose first question is NotAnswered and whose
other known qids are NotVisited; with a present-but-malformed blob the
JSON.parse error propagates out of startExam as a hard failure (caught
only upstream by the upload handler) and no attempt is created. -/
theorem claim_C3_amended (qSet : QuestionSet) (sid : String) (now : Nat)
    (q0 : Question) (rest : List Question) (hq : qSet.questions = q0 :: rest) :
    (startExam qSet sid (some ParsedBlob.malformed) now = StartExamResult.parseFailure
      ∧ (startExam qSet sid (some ParsedBlob.malformed) now).startedAttempt = none)
    ∧ ∃ a : Attempt,
        startExam qSet sid none now = StartExamResult.fresh a
        ∧ a.status = AttemptStatus.inProgress
        ∧ a.statuses q0.qid = some QuestionStatus.NotAnswered
        ∧ ∀ k, k ≠ q0.qid →
            a.statuses k
              = if k ∈ qSet.questions.map Question.qid
                then some QuestionStatus.NotVisited else none := by
  constructor
  · constructor <;> simp [startExam, hq, StartExamResult.startedAttempt]
  · refine ⟨⟨sid, "local_user", ⟨now, EXAM_DURATION_SECONDS, EXAM_DURATION_SECONDS⟩,
      fun _ => none, initialStatuses (q0 :: rest), AttemptStatus.inProgress, none⟩,
      ?_, rfl, ?_, ?_⟩
    · simp [startExam, hq]
    · simp [initialStatuses]
    · intro k hk
      rw [hq]
      simp only [initialStatuses]
      rw [if_neg hk, statusWrites_foldl_eq]

/-- Witness for the amended claim C3 at a concrete two-question set. -/
theorem claim_C3_amended_witness :
    startExam (qSetOf markingCAT [questionQ1, questionQ2]) "sid"
        (some ParsedBlob.malformed) 0
      = StartExamResult.parseFailure :=
  (claim_C3_amended (qSetOf markingCAT [questionQ1, questionQ2]) "sid" 0
    questionQ1 [questionQ2] rfl).1.1

/-- A question set whose two questions share qid 1. -/
def dupQidQSet : QuestionSet :=
  qSetOf markingCAT [questionQ1, { qid := 1, qtype := QuestionType.TITA, answerKey := some "9" }]

/-- Counterexample to claim C4: a question set with a duplicate qid is
accepted — startExam does not fail and creates an in-progress attempt. -/
theorem claim_C4_counterexample :
    dupQidQSet.questions.map Question.qid = [1, 1]
    ∧ (startExam dupQidQSet "sid" none 0).isFailure = false
    ∧ (startExam dupQidQSet "sid" none 0).startedAttempt.map Attempt.status
      = some AttemptStatus.inProgress := ⟨rfl, rfl, rfl⟩

/-- Claim C4 as amended: startExam fails with the no-questions report
exactly when the question set is empty, and then creates no attempt;
duplicate qids are not detected and the attempt starts. -/
theorem claim_C4_amended (qSet : QuestionSet) (sid : String)
    (blob : Option ParsedBlob) (now : Nat) :
    (startExam qSet sid blob now = StartExamResult.noQuestions ↔ qSet.questions = [])
    ∧ (qSet.questions = [] → (startExam qSet sid blob now).startedAttempt = none) := by
  constructor
  · constructor
    · intro h
      cases hq : qSet.questions with
      | nil => rfl
      | cons q rest =>
        rcases blob with _ | b
        · simp [startExam, hq] at h
        · cases b <;> simp [startExam, hq] at h
    · intro h
      simp [startExam, h]
  · intro h
    simp [startExam, h, StartExamResult.startedAttempt]

/-- Witness for the amended claim C4: the empty question set is refused
with the no-questions report. -/
theorem claim_C4_amended_witness :
    startExam (qSetOf markingCAT []) "sid" none 0 = StartExamResult.noQuestions :=
  (claim_C4_amended (qSetOf markingCAT []) "sid" none 0).1.mpr rfl

/-- Counterexample to claim C7: an unanswered question currently
MarkedForReview, toggled twice, ends at MarkedForReview — not
NotAnswered. -/
theorem claim_C7_counterexample :
    (attemptStatusOne QuestionStatus.MarkedForReview).answers 1 = none
    ∧ (handleMarkForReview 1 (handleMarkForReview 1
        (attemptStatusOne QuestionStatus.MarkedForReview))).statuses 1
      = some QuestionStatus.MarkedForReview := ⟨rfl, rfl⟩

/-- Claim C7 as amended: every single toggleMark follows the section 4.1
table, and for an unanswered question whose current status carries no
mark (NotVisited, NotAnswered or Answered — i.e. not MarkedForReview and
not AnsweredAndMarked) toggling twice lands on NotAnswered, never
NotVisited; from an already-marked status the double toggle returns to
that marked status instead. -/
theorem claim_C7_amended :
    (∀ (a : Attempt) (qid : Nat) (s : QuestionStatus),
        a.statuses qid = some s →
        (handleMarkForReview qid a).statuses qid
          = some (specToggleMark s (truthyStr (a.answers qid))))
    ∧ (∀ (a : Attempt) (qid : Nat) (s : QuestionStatus),
        truthyStr (a.answers qid) = false →
        a.statuses qid = some s →
        s ≠ QuestionStatus.MarkedForReview →
        s ≠ QuestionStatus.AnsweredAndMarked →
        (handleMarkForReview qid (handleMarkForReview qid a)).statuses qid
          = some QuestionStatus.NotAnswered) := by
  constructor
  · intro a qid s h
    cases s <;> simp [handleMarkForReview, specToggleMark, h]
  · intro a qid s hans h hmfr hamb
    have h1 : (handleMarkForReview qid a).statuses qid
        = some QuestionStatus.MarkedForReview := by
      cases s with
      | MarkedForReview => exact absurd rfl hmfr
      | AnsweredAndMarked => exact absurd rfl hamb
      | NotVisited => simp [handleMarkForReview, h, hans]
      | NotAnswered => simp [handleMarkForReview, h, hans]
      | Answered => simp [handleMarkForReview, h, hans]
    have hans2 : truthyStr ((handleMarkForReview qid a).answers qid) = false := hans
    have key : ∀ b : Attempt,
        truthyStr (b.answers qid) = false →
        b.statuses qid = some QuestionStatus.MarkedForReview →
        (handleMarkForReview qid b).statuses qid = some QuestionStatus.NotAnswered := by
      intro b hb1 hb2
      simp [handleMarkForReview, hb1, hb2]
    exact key _ hans2 h1

/-- Witness for the amended claim C7: question 1, unanswered and
NotAnswered, toggled twice, is NotAnswered again. -/
theorem claim_C7_amended_witness :
    (handleMarkForReview 1 (handleMarkForReview 1
        (attemptStatusOne QuestionStatus.NotAnswered))).statuses 1
      = some QuestionStatus.NotAnswered :=
  claim_C7_amended.2 (attemptStatusOne QuestionStatus.NotAnswered) 1
    QuestionStatus.NotAnswered rfl rfl (by decide) (by decide)

end ExamSim
